import Mathlib

/-!
Shallow embedding of the goals microservice (app/main.py, app/schemas.py,
app/models.py): the goal data model, the pydantic validation layer, the five
CRUD handlers, and the aggregation endpoint `goals_summary` with its
hard/soft upstream-failure policy.

The datastore (a relational `goals` table keyed by the autoincrementing
primary key `goal_id`) is modelled as a `List Goal`; a fresh primary key is
one more than the largest key present, matching SQLite rowid assignment.
Floats are modelled as rationals; calendar dates as an abstract day number.
-/

namespace GoalsService

/-- A persisted goal row (models.GoalDB / schemas.GoalOutput).
`title` and `status` are NOT NULL columns; the optional fields are nullable. -/
structure Goal where
  goal_id : Nat
  user_id : Int
  title : String
  description : Option String
  target_value : Option ℚ
  current_value : Option ℚ
  unit : Option String
  due_date : Option Nat
  status : String
deriving Repr, DecidableEq

/-- The create payload (schemas.GoalInput), before constraint validation.
`status` defaults to "pending" when the field is omitted. -/
structure GoalInput where
  user_id : Int
  title : String
  description : Option String := none
  target_value : Option ℚ := none
  current_value : Option ℚ := none
  unit : Option String := none
  due_date : Option Nat := none
  status : String := "pending"
deriving Repr, DecidableEq

/-- The partial-update payload (schemas.GoalUpdate dumped with
`exclude_unset=True`): each field is unset (`none`), explicitly null
(`some none`), or set to a value (`some (some v)`). -/
structure GoalUpdate where
  title : Option (Option String) := none
  description : Option (Option String) := none
  target_value : Option (Option ℚ) := none
  current_value : Option (Option ℚ) := none
  unit : Option (Option String) := none
  due_date : Option (Option Nat) := none
  status : Option (Option String) := none
deriving Repr, DecidableEq

/-! ## Validation layer (schemas.py field constraints) -/

/-- GoalTitleStr: StringConstraints(min_length=3, max_length=100). -/
def titleOk (s : String) : Bool :=
  decide (3 ≤ s.length) && decide (s.length ≤ 100)

/-- GoalDescriptionStr: StringConstraints(max_length=500), optional. -/
def descriptionOk : Option String → Bool
  | none => true
  | some s => decide (s.length ≤ 500)

/-- GoalValueFloat: Ge(0.0), Le(1_000_000.0), optional. -/
def valueOk : Option ℚ → Bool
  | none => true
  | some v => decide (0 ≤ v) && decide (v ≤ 1000000)

/-- GoalUnitStr: StringConstraints(min_length=1, max_length=50), optional. -/
def unitOk : Option String → Bool
  | none => true
  | some s => decide (1 ≤ s.length) && decide (s.length ≤ 50)

/-- GoalStatusStr: StringConstraints(min_length=3, max_length=50). -/
def statusOk (s : String) : Bool :=
  decide (3 ≤ s.length) && decide (s.length ≤ 50)

/-- Pydantic validation of a GoalInput: the names of every field whose
constraint is violated (pydantic collects all field errors, not just the
first). An empty list means the payload parses. -/
def violatedFields (p : GoalInput) : List String :=
  (if titleOk p.title then [] else ["title"]) ++
  (if descriptionOk p.description then [] else ["description"]) ++
  (if valueOk p.target_value then [] else ["target_value"]) ++
  (if valueOk p.current_value then [] else ["current_value"]) ++
  (if unitOk p.unit then [] else ["unit"]) ++
  (if statusOk p.status then [] else ["status"])

/-- Pydantic validation of a GoalUpdate: every field is Optional, so an
explicit null is type-correct; a present string/number must satisfy its
field constraint. -/
def updateViolatedFields (u : GoalUpdate) : List String :=
  (match u.title with
   | some (some s) => if titleOk s then [] else ["title"]
   | _ => []) ++
  (match u.description with
   | some (some s) => if decide (s.length ≤ 500) then [] else ["description"]
   | _ => []) ++
  (match u.target_value with
   | some (some v) => if valueOk (some v) then [] else ["target_value"]
   | _ => []) ++
  (match u.current_value with
   | some (some v) => if valueOk (some v) then [] else ["current_value"]
   | _ => []) ++
  (match u.unit with
   | some (some s) => if unitOk (some s) then [] else ["unit"]
   | _ => []) ++
  (match u.status with
   | some (some s) => if statusOk s then [] else ["status"]
   | _ => [])

/-! ## CRUD handlers (main.py) -/

/-- A handler outcome: success with an HTTP status code and a body, or an
HTTPException with a status code and a detail message. -/
inductive HResp (α : Type) where
  | ok (code : Nat) (body : α)
  | httpError (code : Nat) (detail : String)
deriving Repr, DecidableEq

/-- The primary key SQLite assigns to the next inserted row: one more than
the largest `goal_id` present (1 on an empty table). -/
def nextGoalId (db : List Goal) : Nat :=
  (db.map Goal.goal_id).foldr max 0 + 1

/-- POST /goals (main.create_goal): FastAPI first runs pydantic validation
(422 listing every violated field), then the handler inserts a new row built
from the payload and returns it with 201. -/
def create_goal (p : GoalInput) (db : List Goal) : HResp Goal × List Goal :=
  if violatedFields p ≠ [] then
    (.httpError 422 (String.intercalate "; " (violatedFields p)), db)
  else
    let g : Goal :=
      { goal_id := nextGoalId db
        user_id := p.user_id
        title := p.title
        description := p.description
        target_value := p.target_value
        current_value := p.current_value
        unit := p.unit
        due_date := p.due_date
        status := p.status }
    (.ok 201 g, db ++ [g])

/-- GET /goals (main.list_goals): all goals, or only those whose `user_id`
matches the optional query filter. -/
def list_goals (user_id : Option Int) (db : List Goal) : HResp (List Goal) :=
  match user_id with
  | none => .ok 200 db
  | some uid => .ok 200 (db.filter (fun g => g.user_id == uid))

/-- `db.query(GoalDB).filter(GoalDB.goal_id == goal_id).first()`. -/
def findGoal (db : List Goal) (gid : Nat) : Option Goal :=
  db.find? (fun g => g.goal_id == gid)

/-- GET /goals/{goal_id} (main.get_goal): 404 "Goal not found" when no row
matches, else 200 with the row. -/
def get_goal (gid : Nat) (db : List Goal) : HResp Goal :=
  match findGoal db gid with
  | none => .httpError 404 "Goal not found"
  | some g => .ok 200 g

/-- `for key, value in payload.model_dump(exclude_unset=True).items():
setattr(goal, key, value)` — each field explicitly present in the payload
overwrites the attribute (with its value, or with null); unset fields are
not touched. `GoalUpdate` has no `user_id` field, so `user_id` never
changes. -/
def applyUpdate (g : Goal) (u : GoalUpdate) : Goal :=
  { goal_id := g.goal_id
    user_id := g.user_id
    title := match u.title with
             | some (some s) => s
             | _ => g.title
    description := match u.description with
                   | some d => d
                   | none => g.description
    target_value := match u.target_value with
                    | some v => v
                    | none => g.target_value
    current_value := match u.current_value with
                     | some v => v
                     | none => g.current_value
    unit := match u.unit with
            | some s => s
            | none => g.unit
    due_date := match u.due_date with
                | some d => d
                | none => g.due_date
    status := match u.status with
              | some (some s) => s
              | _ => g.status }

/-- PUT /goals/{goal_id} (main.update_goal): pydantic validation first
(422), then 404 if no row matches; otherwise the present fields are
applied via setattr and the row committed. An explicit null for the
NOT NULL columns `title`/`status` makes the commit raise an unhandled
IntegrityError, surfaced as a 500 with the session rolled back. -/
def update_goal (gid : Nat) (u : GoalUpdate) (db : List Goal) :
    HResp Goal × List Goal :=
  if updateViolatedFields u ≠ [] then
    (.httpError 422 (String.intercalate "; " (updateViolatedFields u)), db)
  else
    match findGoal db gid with
    | none => (.httpError 404 "Goal not found", db)
    | some g =>
      if u.title = some none ∨ u.status = some none then
        (.httpError 500 "Internal Server Error", db)
      else
        let g' := applyUpdate g u
        (.ok 200 g', db.map (fun x => if x.goal_id = gid then g' else x))

/-- DELETE /goals/{goal_id} (main.delete_goal): 404 if no row matches,
else the row with that primary key is removed and 204 returned. -/
def delete_goal (gid : Nat) (db : List Goal) : HResp Unit × List Goal :=
  match findGoal db gid with
  | none => (.httpError 404 "Goal not found", db)
  | some _ => (.ok 204 (), db.filter (fun x => x.goal_id != gid))

/-! ## Aggregation endpoint (main.goals_summary) -/

/-- A JSON value, as produced by `response.json()`. -/
inductive Json where
  | null
  | bool (b : Bool)
  | num (q : ℚ)
  | str (s : String)
  | arr (elems : List Json)
  | obj (fields : List (String × Json))
deriving Repr

/-- An HTTP response from an upstream service. `jsonBody` is what
`response.json()` yields: `none` when `text` is not valid JSON (the parse
raises), `some v` otherwise. -/
structure HttpResponse where
  statusCode : Nat
  text : String
  jsonBody : Option Json
deriving Repr

/-- The outcome of one `client.get(...)`: an httpx.RequestError (transport
failure, with its message text) or a response. -/
inductive CallResult where
  | transportError (msg : String)
  | response (r : HttpResponse)
deriving Repr

/-- The behaviour of the two upstream services for one request. -/
structure SummaryEnv where
  userCall : CallResult
  workoutCall : CallResult
deriving Repr

/-- `httpx.Response.is_success`, the condition under which
`raise_for_status()` does NOT raise. -/
def is2xx (code : Nat) : Bool :=
  decide (200 ≤ code) && decide (code < 300)

/-- The observable side effects of goals_summary, in order of occurrence. -/
inductive Step where
  | callUserService
  | queryGoals
  | callWorkoutService
deriving Repr, DecidableEq

/-- What the goals_summary request produces: the 200 body
`{user, goals, workouts}`, an HTTPException, or an exception no handler
catches (the framework turns it into a 500 Internal Server Error). -/
inductive SummaryResult where
  | ok (user : Json) (goals : List Goal) (workouts : Json)
  | httpError (code : Nat) (detail : String)
  | unhandledException (msg : String)
deriving Repr

/-- GET /api/goals-summary/{user_id} (main.goals_summary), paired with the
trace of sub-calls it performs:
1. user service call — transport error gives 502 quoting the error, a 404
   response gives 404 "User not found", any other non-2xx gives 502 quoting
   the response body; `user_res.json()` is outside the try, so a 2xx body
   that is not JSON escapes as an unhandled JSONDecodeError;
2. local query of this service's own DB for the user's goals;
3. workout service call — a RequestError or HTTPStatusError is caught and
   workouts degrades to the empty list, but `workouts_res.json()` raising
   inside the try is neither of those exception types and escapes. -/
def goals_summary (uid : Int) (db : List Goal) (env : SummaryEnv) :
    SummaryResult × List Step :=
  match env.userCall with
  | .transportError msg =>
    (.httpError 502 ("Error contacting user service: " ++ msg),
     [.callUserService])
  | .response r =>
    if is2xx r.statusCode then
      match r.jsonBody with
      | none => (.unhandledException "JSONDecodeError", [.callUserService])
      | some userData =>
        let goals := db.filter (fun g => g.user_id == uid)
        match env.workoutCall with
        | .transportError _ =>
          (.ok userData goals (.arr []),
           [.callUserService, .queryGoals, .callWorkoutService])
        | .response wr =>
          if is2xx wr.statusCode then
            match wr.jsonBody with
            | none =>
              (.unhandledException "JSONDecodeError",
               [.callUserService, .queryGoals, .callWorkoutService])
            | some w =>
              (.ok userData goals w,
               [.callUserService, .queryGoals, .callWorkoutService])
          else
            (.ok userData goals (.arr []),
             [.callUserService, .queryGoals, .callWorkoutService])
    else if r.statusCode = 404 then
      (.httpError 404 "User not found", [.callUserService])
    else
      (.httpError 502 ("User service error: " ++ r.text), [.callUserService])

/-- The user-service call failed: transport error, or a response
raise_for_status raises on (any non-2xx). -/
def userCallFails : CallResult → Prop
  | .transportError _ => True
  | .response r => is2xx r.statusCode = false

instance : DecidablePred userCallFails := fun c => by
  cases c <;> simp [userCallFails] <;> infer_instance

/-- A sample stored goal used to instantiate universally quantified
theorems at a concrete input. -/
def sampleGoal : Goal :=
  { goal_id := 1
    user_id := 7
    title := "run 5k"
    description := some "train for the race"
    target_value := some 5
    current_value := some 2
    unit := some "km"
    due_date := some 739500
    status := "pending" }

/-! ## Theorems -/

section ValidationLemmas

/-- Membership of "title" in the violation list is exactly failure of the
title constraint. -/
theorem title_mem_violatedFields (p : GoalInput) :
    "title" ∈ violatedFields p ↔ titleOk p.title = false := by
  unfold violatedFields
  split_ifs <;> simp_all

/-- Membership of "description" in the violation list is exactly failure of
the description constraint. -/
theorem description_mem_violatedFields (p : GoalInput) :
    "description" ∈ violatedFields p ↔ descriptionOk p.description = false := by
  unfold violatedFields
  split_ifs <;> simp_all

/-- Membership of "target_value" in the violation list is exactly failure
of the value-range constraint on `target_value`. -/
theorem target_mem_violatedFields (p : GoalInput) :
    "target_value" ∈ violatedFields p ↔ valueOk p.target_value = false := by
  unfold violatedFields
  split_ifs <;> simp_all

/-- Membership of "current_value" in the violation list is exactly failure
of the value-range constraint on `current_value`. -/
theorem current_mem_violatedFields (p : GoalInput) :
    "current_value" ∈ violatedFields p ↔ valueOk p.current_value = false := by
  unfold violatedFields
  split_ifs <;> simp_all

/-- Membership of "unit" in the violation list is exactly failure of the
unit constraint. -/
theorem unit_mem_violatedFields (p : GoalInput) :
    "unit" ∈ violatedFields p ↔ unitOk p.unit = false := by
  unfold violatedFields
  split_ifs <;> simp_all

/-- Membership of "status" in the violation list is exactly failure of the
status constraint. -/
theorem status_mem_violatedFields (p : GoalInput) :
    "status" ∈ violatedFields p ↔ statusOk p.status = false := by
  unfold violatedFields
  split_ifs <;> simp_all

end ValidationLemmas

/-- C6: the validation boundaries are exact — a title of length 2 violates
the title constraint and one of length 3 does not; a target_value of
exactly 1,000,000.0 passes the range constraint and 1,000,000.01 fails
it. -/
theorem validation_boundaries (p : GoalInput) :
    (p.title.length = 2 → "title" ∈ violatedFields p) ∧
    (p.title.length = 3 → "title" ∉ violatedFields p) ∧
    (p.target_value = some (1000000 : ℚ) →
      "target_value" ∉ violatedFields p) ∧
    (p.target_value = some (1000000.01 : ℚ) →
      "target_value" ∈ violatedFields p) := by
  refine ⟨?_, ?_, ?_, ?_⟩
  · intro h
    rw [title_mem_violatedFields]
    simp [titleOk, h]
  · intro h
    rw [title_mem_violatedFields]
    simp [titleOk, h]
  · intro h
    rw [target_mem_violatedFields]
    simp [valueOk, h]
  · intro h
    rw [target_mem_violatedFields]
    have hgt : ¬ ((1000000.01 : ℚ) ≤ 1000000) := by norm_num
    simp [valueOk, h, hgt]

/-- C6 witness: the boundaries at concrete payloads — title "ab" rejected,
title "abc" accepted, target 1,000,000 accepted, target 1,000,000.01
rejected. -/
theorem validation_boundaries_witness :
    "title" ∈ violatedFields { user_id := 1, title := "ab" } ∧
    "title" ∉ violatedFields { user_id := 1, title := "abc" } ∧
    "target_value" ∉ violatedFields
      { user_id := 1, title := "abc", target_value := some (1000000 : ℚ) } ∧
    "target_value" ∈ violatedFields
      { user_id := 1, title := "abc",
        target_value := some (1000000.01 : ℚ) } :=
  ⟨(validation_boundaries _).1 rfl,
   (validation_boundaries _).2.1 rfl,
   (validation_boundaries _).2.2.1 rfl,
   (validation_boundaries _).2.2.2 rfl⟩

/-- C9: a payload violating one or more field constraints is rejected as a
422 whose detail enumerates every violated field, not only the first: each
field name appears in the violation list exactly when that field's
constraint fails, independently of the other fields. -/
theorem validation_enumerates_all (p : GoalInput) (db : List Goal) :
    ("title" ∈ violatedFields p ↔
      ¬(3 ≤ p.title.length ∧ p.title.length ≤ 100)) ∧
    ("description" ∈ violatedFields p ↔
      ∃ s, p.description = some s ∧ 500 < s.length) ∧
    ("target_value" ∈ violatedFields p ↔
      ∃ v, p.target_value = some v ∧ ¬(0 ≤ v ∧ v ≤ 1000000)) ∧
    ("current_value" ∈ violatedFields p ↔
      ∃ v, p.current_value = some v ∧ ¬(0 ≤ v ∧ v ≤ 1000000)) ∧
    ("unit" ∈ violatedFields p ↔
      ∃ s, p.unit = some s ∧ ¬(1 ≤ s.length ∧ s.length ≤ 50)) ∧
    ("status" ∈ violatedFields p ↔
      ¬(3 ≤ p.status.length ∧ p.status.length ≤ 50)) ∧
    (violatedFields p ≠ [] →
      create_goal p db =
        (.httpError 422 (String.intercalate "; " (violatedFields p)), db)) := by
  refine ⟨?_, ?_, ?_, ?_, ?_, ?_, ?_⟩
  · rw [title_mem_violatedFields]
    simp [titleOk, Classical.not_and_iff_or_not_not]
  · rw [description_mem_violatedFields]
    cases h : p.description <;> simp [descriptionOk, h]
  · rw [target_mem_violatedFields]
    cases h : p.target_value <;>
      simp [valueOk, h, Classical.not_and_iff_or_not_not]
  · rw [current_mem_violatedFields]
    cases h : p.current_value <;>
      simp [valueOk, h, Classical.not_and_iff_or_not_not]
  · rw [unit_mem_violatedFields]
    cases h : p.unit <;>
      simp [unitOk, h, Classical.not_and_iff_or_not_not]
  · rw [status_mem_violatedFields]
    simp [statusOk, Classical.not_and_iff_or_not_not]
  · intro h
    simp [create_goal, h]

/-- C9 witness: a payload violating both the title and the status
constraints is rejected with a 422 whose detail lists both fields. -/
theorem validation_enumerates_all_witness :
    ("title" ∈ violatedFields { user_id := 1, title := "ab", status := "x" }) ∧
    ("status" ∈ violatedFields { user_id := 1, title := "ab", status := "x" }) ∧
    create_goal { user_id := 1, title := "ab", status := "x" } [] =
      (.httpError 422 (String.intercalate "; "
        (violatedFields { user_id := 1, title := "ab", status := "x" })), []) :=
  ⟨((validation_enumerates_all _ []).1).mpr (by decide),
   ((validation_enumerates_all _ []).2.2.2.2.2.1).mpr (by decide),
   (validation_enumerates_all _ []).2.2.2.2.2.2 (by decide)⟩

/-- C1: goals_summary maps User Service outcomes to errors exactly as
specified — a transport failure yields 502 with the underlying transport
error text in the message; a 404 response yields 404 "User not found"; any
other non-2xx response yields 502 with the upstream response body in the
message. -/
theorem goals_summary_user_error_mapping (uid : Int) (db : List Goal)
    (env : SummaryEnv) :
    (∀ msg, env.userCall = .transportError msg →
      (goals_summary uid db env).1 =
        .httpError 502 ("Error contacting user service: " ++ msg)) ∧
    (∀ r, env.userCall = .response r → r.statusCode = 404 →
      (goals_summary uid db env).1 = .httpError 404 "User not found") ∧
    (∀ r, env.userCall = .response r → is2xx r.statusCode = false →
      r.statusCode ≠ 404 →
      (goals_summary uid db env).1 =
        .httpError 502 ("User service error: " ++ r.text)) := by
  refine ⟨?_, ?_, ?_⟩
  · intro msg h
    simp [goals_summary, h]
  · intro r h h404
    simp [goals_summary, h, h404, is2xx]
  · intro r h h2 h404
    simp [goals_summary, h, h2, h404]

/-- C1 witness: with the user service unreachable (message "boom"), the
summary is a 502 quoting the transport error. -/
theorem goals_summary_user_error_mapping_witness :
    (goals_summary 1 []
      { userCall := .transportError "boom",
        workoutCall := .transportError "down" }).1 =
      .httpError 502 "Error contacting user service: boom" :=
  (goals_summary_user_error_mapping 1 [] _).1 "boom" rfl

/-- C2: when the User Service call succeeds (2xx, JSON body), any Workout
Service failure — transport error or non-2xx response — never aborts
goals_summary: the result is the 200 body with `workouts = []` and `user`
and `goals` populated from the successful calls. -/
theorem goals_summary_workout_soft_failure (uid : Int) (db : List Goal)
    (env : SummaryEnv) (r : HttpResponse) (u : Json)
    (huser : env.userCall = .response r)
    (h2xx : is2xx r.statusCode = true)
    (hjson : r.jsonBody = some u)
    (hwfail : (∃ msg, env.workoutCall = .transportError msg) ∨
      (∃ wr, env.workoutCall = .response wr ∧ is2xx wr.statusCode = false)) :
    (goals_summary uid db env).1 =
      .ok u (db.filter (fun g => g.user_id == uid)) (.arr []) := by
  rcases hwfail with ⟨msg, hw⟩ | ⟨wr, hw, hw2⟩
  · simp [goals_summary, huser, h2xx, hjson, hw]
  · simp [goals_summary, huser, h2xx, hjson, hw, hw2]

/-- C2 witness: user service answers 200 with a JSON body and the workout
service is unreachable; the summary is 200 with empty workouts and the
user's goals. -/
theorem goals_summary_workout_soft_failure_witness :
    (goals_summary 7
      [{ goal_id := 1, user_id := 7, title := "run", description := none,
         target_value := none, current_value := none, unit := none,
         due_date := none, status := "pending" }]
      { userCall := .response
          { statusCode := 200, text := "{}", jsonBody := some (.obj []) },
        workoutCall := .transportError "connect refused" }).1 =
      .ok (.obj [])
        [{ goal_id := 1, user_id := 7, title := "run", description := none,
           target_value := none, current_value := none, unit := none,
           due_date := none, status := "pending" }] (.arr []) := by
  exact goals_summary_workout_soft_failure 7 _ _ _ (.obj []) rfl rfl rfl
    (.inl ⟨"connect refused", rfl⟩)

/-- C3: goals_summary calls the User Service first and aborts immediately
on its failure: the trace stops at the user call (no local goals query, no
workout call), the result is an HTTP error, and changing the Workout
Service's behaviour changes nothing. -/
theorem goals_summary_user_first_abort (uid : Int) (db : List Goal)
    (env : SummaryEnv) (hfail : userCallFails env.userCall) :
    (goals_summary uid db env).2 = [.callUserService] ∧
    Step.queryGoals ∉ (goals_summary uid db env).2 ∧
    Step.callWorkoutService ∉ (goals_summary uid db env).2 ∧
    (∃ code detail, (goals_summary uid db env).1 = .httpError code detail) ∧
    (∀ wc, goals_summary uid db { env with workoutCall := wc } =
      goals_summary uid db env) := by
  have htrace : ∀ wc,
      goals_summary uid db { env with workoutCall := wc } =
        ((goals_summary uid db env).1, [Step.callUserService]) ∧
      (∃ code detail,
        (goals_summary uid db env).1 = .httpError code detail) := by
    intro wc
    match henv : env.userCall with
    | .transportError msg =>
      refine ⟨?_, 502, "Error contacting user service: " ++ msg, ?_⟩ <;>
        simp [goals_summary, henv]
    | .response r =>
      have h2 : is2xx r.statusCode = false := by
        simpa [userCallFails, henv] using hfail
      by_cases h404 : r.statusCode = 404
      · refine ⟨?_, 404, "User not found", ?_⟩ <;>
          simp [goals_summary, henv, h404, is2xx]
      · refine ⟨?_, 502, "User service error: " ++ r.text, ?_⟩ <;>
          simp [goals_summary, henv, h2, h404]
  have hself := (htrace env.workoutCall).1
  have henvself : { env with workoutCall := env.workoutCall } = env := rfl
  rw [henvself] at hself
  refine ⟨by rw [hself], ?_, ?_, (htrace env.workoutCall).2, ?_⟩
  · rw [hself]; simp
  · rw [hself]; simp
  · intro wc
    rw [(htrace wc).1, hself]

/-- C3 witness: user service answers 404; the trace is just the user call,
the result is the 404 error, and swapping the workout outcome is
irrelevant. -/
theorem goals_summary_user_first_abort_witness :
    (goals_summary 99 []
      { userCall := .response
          { statusCode := 404, text := "not here", jsonBody := none },
        workoutCall := .transportError "down" }).2 = [.callUserService] :=
  (goals_summary_user_first_abort 99 []
    { userCall := .response
        { statusCode := 404, text := "not here", jsonBody := none },
      workoutCall := .transportError "down" } (by decide)).1

/-- C10: a 2xx Workout Service response whose body is not valid JSON is not
degraded to empty workouts — `workouts_res.json()` raises an exception that
is neither RequestError nor HTTPStatusError, so the whole request fails
instead of returning a 200 body. -/
theorem goals_summary_workout_bad_json_fails (uid : Int) (db : List Goal)
    (env : SummaryEnv) (r wr : HttpResponse) (u : Json)
    (huser : env.userCall = .response r)
    (h2xx : is2xx r.statusCode = true)
    (hjson : r.jsonBody = some u)
    (hw : env.workoutCall = .response wr)
    (hw2xx : is2xx wr.statusCode = true)
    (hwjson : wr.jsonBody = none) :
    (goals_summary uid db env).1 = .unhandledException "JSONDecodeError" ∧
    ∀ user goals workouts,
      (goals_summary uid db env).1 ≠ .ok user goals workouts := by
  have h : (goals_summary uid db env).1 =
      .unhandledException "JSONDecodeError" := by
    simp [goals_summary, huser, h2xx, hjson, hw, hw2xx, hwjson]
  refine ⟨h, ?_⟩
  intro user goals workouts hc
  rw [h] at hc
  exact SummaryResult.noConfusion hc

/-- C10 witness: both services answer 200 but the workout body is not
JSON; the request ends in the unhandled JSON decode error. -/
theorem goals_summary_workout_bad_json_fails_witness :
    (goals_summary 1 []
      { userCall := .response
          { statusCode := 200, text := "{}", jsonBody := some (.obj []) },
        workoutCall := .response
          { statusCode := 200, text := "<html>", jsonBody := none } }).1 =
      .unhandledException "JSONDecodeError" :=
  (goals_summary_workout_bad_json_fails 1 []
    { userCall := .response
        { statusCode := 200, text := "{}", jsonBody := some (.obj []) },
      workoutCall := .response
        { statusCode := 200, text := "<html>", jsonBody := none } }
    { statusCode := 200, text := "{}", jsonBody := some (.obj []) }
    { statusCode := 200, text := "<html>", jsonBody := none }
    (.obj []) rfl rfl rfl rfl rfl rfl).1

section StoreLemmas

/-- Every element of a list of naturals is bounded by the foldr max. -/
theorem mem_le_foldr_max {l : List Nat} {x : Nat} (h : x ∈ l) :
    x ≤ l.foldr max 0 := by
  induction l with
  | nil => cases h
  | cons a t ih =>
    rcases List.mem_cons.mp h with rfl | hx
    · exact le_max_left _ _
    · exact le_trans (ih hx) (le_max_right _ _)

/-- The id of every stored goal is strictly below the next assigned id. -/
theorem goal_id_lt_nextGoalId {db : List Goal} {x : Goal} (h : x ∈ db) :
    x.goal_id < nextGoalId db :=
  Nat.lt_succ_of_le (mem_le_foldr_max (List.mem_map_of_mem Goal.goal_id h))

/-- find? skips a prefix on which the predicate is everywhere false. -/
theorem find?_append_all_false {α : Type} {l₁ : List α} (l₂ : List α)
    {p : α → Bool} (h : ∀ x ∈ l₁, p x = false) :
    (l₁ ++ l₂).find? p = l₂.find? p := by
  induction l₁ with
  | nil => rfl
  | cons a t ih =>
    have ha := h a (List.mem_cons_self a t)
    simp only [List.cons_append, List.find?, ha]
    exact ih fun x hx => h x (List.mem_cons_of_mem a hx)

end StoreLemmas

/-- C5: creating a goal from a valid payload returns 201 with a record
whose goal_id is positive and distinct from every previously issued id,
and a subsequent get on that id returns field-for-field the submitted
values. -/
theorem create_get_roundtrip (p : GoalInput) (db : List Goal)
    (hvalid : violatedFields p = []) :
    ∃ g db', create_goal p db = (.ok 201 g, db') ∧
      0 < g.goal_id ∧
      (∀ x ∈ db, x.goal_id ≠ g.goal_id) ∧
      get_goal g.goal_id db' = .ok 200 g ∧
      g.user_id = p.user_id ∧ g.title = p.title ∧
      g.description = p.description ∧ g.target_value = p.target_value ∧
      g.current_value = p.current_value ∧ g.unit = p.unit ∧
      g.due_date = p.due_date ∧ g.status = p.status := by
  refine ⟨⟨nextGoalId db, p.user_id, p.title, p.description,
           p.target_value, p.current_value, p.unit, p.due_date, p.status⟩,
          db ++ [⟨nextGoalId db, p.user_id, p.title, p.description,
           p.target_value, p.current_value, p.unit, p.due_date, p.status⟩],
          ?_, Nat.succ_pos _, ?_, ?_, rfl, rfl, rfl, rfl, rfl,
          rfl, rfl, rfl⟩
  · simp [create_goal, hvalid]
  · intro x hx
    exact Nat.ne_of_lt (goal_id_lt_nextGoalId hx)
  · have hskip : ∀ x ∈ db,
        (x.goal_id == nextGoalId db) = false := fun x hx =>
      beq_eq_false_iff_ne.mpr (Nat.ne_of_lt (goal_id_lt_nextGoalId hx))
    unfold get_goal findGoal
    rw [find?_append_all_false _ hskip]
    simp [List.find?]

/-- C5 witness: round-trip at a concrete valid payload on a one-row
store. -/
theorem create_get_roundtrip_witness :
    violatedFields { user_id := 7, title := "run 5k" } = [] ∧
    ∃ g db', create_goal { user_id := 7, title := "run 5k" } [sampleGoal] =
        (.ok 201 g, db') ∧
      0 < g.goal_id ∧
      (∀ x ∈ [sampleGoal], x.goal_id ≠ g.goal_id) ∧
      get_goal g.goal_id db' = .ok 200 g ∧
      g.user_id = 7 ∧ g.title = "run 5k" ∧
      g.description = none ∧ g.target_value = none ∧
      g.current_value = none ∧ g.unit = none ∧
      g.due_date = none ∧ g.status = "pending" :=
  ⟨by decide, create_get_roundtrip { user_id := 7, title := "run 5k" }
    [sampleGoal] (by decide)⟩

/-- C7: when no goal matches an id, get, update (with a well-formed
payload) and delete all answer 404 "Goal not found" and leave the store
untouched; when a goal matches, delete answers 204 and a subsequent get on
the same id answers 404. -/
theorem goal_notfound_contract (db : List Goal) (gid : Nat) :
    (findGoal db gid = none →
      get_goal gid db = .httpError 404 "Goal not found" ∧
      (∀ u, updateViolatedFields u = [] →
        update_goal gid u db = (.httpError 404 "Goal not found", db)) ∧
      delete_goal gid db = (.httpError 404 "Goal not found", db)) ∧
    (∀ g, findGoal db gid = some g →
      (delete_goal gid db).1 = .ok 204 () ∧
      get_goal gid (delete_goal gid db).2 =
        .httpError 404 "Goal not found") := by
  constructor
  · intro h
    refine ⟨?_, ?_, ?_⟩
    · simp [get_goal, h]
    · intro u hu
      simp [update_goal, hu, h]
    · simp [delete_goal, h]
  · intro g hg
    constructor
    · simp [delete_goal, hg]
    · have hnone : findGoal (db.filter (fun x => x.goal_id != gid)) gid =
          none := by
        rw [findGoal, List.find?_eq_none]
        intro x hx
        have := (List.mem_filter.mp hx).2
        simp_all
      simp [delete_goal, hg, get_goal, hnone]

/-- C7 witness: on a one-row store, id 2 is absent (404 on all three
handlers) and deleting id 1 then getting it yields 204 then 404. -/
theorem goal_notfound_contract_witness :
    get_goal 2 [sampleGoal] = .httpError 404 "Goal not found" ∧
    (delete_goal 1 [sampleGoal]).1 = .ok 204 () ∧
    get_goal 1 (delete_goal 1 [sampleGoal]).2 =
      .httpError 404 "Goal not found" :=
  ⟨((goal_notfound_contract [sampleGoal] 2).1 (by decide)).1,
   ((goal_notfound_contract [sampleGoal] 1).2 sampleGoal (by decide)).1,
   ((goal_notfound_contract [sampleGoal] 1).2 sampleGoal (by decide)).2⟩

/-- C8: listing with a user_id filter answers 200 with exactly the stored
goals whose user_id equals the filter — the empty sequence (still 200, not
an error) when none match — and listing without a filter answers 200 with
all goals. -/
theorem list_goals_filter_spec (db : List Goal) (uid : Int) :
    (∃ gs, list_goals (some uid) db = .ok 200 gs ∧
      ∀ g, g ∈ gs ↔ g ∈ db ∧ g.user_id = uid) ∧
    ((∀ g ∈ db, g.user_id ≠ uid) →
      list_goals (some uid) db = .ok 200 []) ∧
    list_goals none db = .ok 200 db := by
  refine ⟨⟨db.filter (fun g => g.user_id == uid), rfl, ?_⟩, ?_, rfl⟩
  · intro g
    rw [List.mem_filter]
    simp
  · intro h
    have : db.filter (fun g => g.user_id == uid) = [] := by
      rw [List.filter_eq_nil_iff]
      intro g hg
      simpa using h g hg
    simp [list_goals, this]

/-- C8 witness: filtering the one-row store (user 7) by user 5 gives the
empty sequence with 200, and no filter returns the row. -/
theorem list_goals_filter_spec_witness :
    list_goals (some 5) [sampleGoal] = .ok 200 [] ∧
    list_goals none [sampleGoal] = .ok 200 [sampleGoal] :=
  ⟨(list_goals_filter_spec [sampleGoal] 5).2.1 (by decide),
   (list_goals_filter_spec [sampleGoal] 5).2.2⟩

/-- C4: update_goal applies exactly the fields explicitly present in the
payload and leaves every absent field unchanged — an absent field is never
reset to null, and "absent" is distinguished from "present with null":
for each nullable field, a payload carrying `some none` sets it to null
while `none` leaves it untouched. (`user_id` is not even a payload field,
so it never changes.) -/
theorem update_goal_partial_fields (db : List Goal) (g : Goal)
    (u : GoalUpdate)
    (hfind : findGoal db g.goal_id = some g)
    (hvalid : updateViolatedFields u = [])
    (htitle : u.title ≠ some none) (hstatus : u.status ≠ some none) :
    ∃ g', (update_goal g.goal_id u db).1 = .ok 200 g' ∧
      g'.goal_id = g.goal_id ∧
      g'.user_id = g.user_id ∧
      (u.title = none → g'.title = g.title) ∧
      (∀ s, u.title = some (some s) → g'.title = s) ∧
      (u.description = none → g'.description = g.description) ∧
      (∀ d, u.description = some d → g'.description = d) ∧
      (u.target_value = none → g'.target_value = g.target_value) ∧
      (∀ v, u.target_value = some v → g'.target_value = v) ∧
      (u.current_value = none → g'.current_value = g.current_value) ∧
      (∀ v, u.current_value = some v → g'.current_value = v) ∧
      (u.unit = none → g'.unit = g.unit) ∧
      (∀ s, u.unit = some s → g'.unit = s) ∧
      (u.due_date = none → g'.due_date = g.due_date) ∧
      (∀ d, u.due_date = some d → g'.due_date = d) ∧
      (u.status = none → g'.status = g.status) ∧
      (∀ s, u.status = some (some s) → g'.status = s) := by
  refine ⟨applyUpdate g u, ?_, rfl, rfl, ?_, ?_, ?_, ?_, ?_, ?_, ?_, ?_,
          ?_, ?_, ?_, ?_, ?_, ?_⟩
  · have hni : ¬(u.title = some none ∨ u.status = some none) := by
      rintro (h | h)
      · exact htitle h
      · exact hstatus h
    simp [update_goal, hvalid, hfind, hni]
  all_goals
    first
    | (intro h; simp [applyUpdate, h])
    | (intro x h; simp [applyUpdate, h])

/-- C4 witness: updating the sample goal with only
`{status: "completed"}` yields 200 and changes status to "completed"
while every other field keeps its stored value. -/
theorem update_goal_partial_fields_witness :
    ∃ g', (update_goal 1 { status := some (some "completed") }
        [sampleGoal]).1 = .ok 200 g' ∧
      g'.goal_id = 1 ∧ g'.user_id = 7 ∧ g'.title = "run 5k" ∧
      g'.description = some "train for the race" ∧
      g'.target_value = some 5 ∧ g'.current_value = some 2 ∧
      g'.unit = some "km" ∧ g'.due_date = some 739500 ∧
      g'.status = "completed" := by
  obtain ⟨g', hok, hid, huid, ht, _, hd, _, htv, _, hcv, _, hu, _, hdd, _,
          _, hs⟩ :=
    update_goal_partial_fields [sampleGoal] sampleGoal
      { status := some (some "completed") } (by decide) (by decide)
      (by simp) (by simp)
  exact ⟨g', hok, hid, huid, by rw [ht rfl]; rfl, by rw [hd rfl]; rfl,
         by rw [htv rfl]; rfl, by rw [hcv rfl]; rfl, by rw [hu rfl]; rfl,
         by rw [hdd rfl]; rfl, hs "completed" rfl⟩

end GoalsService
